import Mathlib

/-!
Verification development for the `fraud_anomaly_detection` repository
(`pysad/transform/ensemble/ensemblers.py` and `models/pyod_model.py`).

The ensembler classes of the repository are thin adapters: `transform_partial`
reshapes the incoming score vector and delegates the numeric combination to
`pyod.models.combination` (`average`, `maximization`, `median`, `aom`, `moa`),
an external collaborator library whose code is not part of the repository.
Following the specification, which documents the combination contract
explicitly, those collaborator functions are modelled here from the words
of the spec, while everything the repository itself contains (class fields,
constructor defaults, dispatch) is translated directly from the source.

Scores are modelled as rationals (`ℚ`); a score vector is a `List ℚ` in
detector order.  The `numpy` reshape to shape `(1, n)` performed by
`transform_partial` is the identity on a single score vector and is therefore
not represented.  The random source consumed by dynamic bucketing / bootstrap
resampling is made explicit as a `List Nat` argument, as the design notes
of the spec require for testability.
-/

namespace FraudAnomaly

/-- Error taxonomy of the spec: `ConfigurationError` for bad construction
parameters (invalid `n_buckets`, invalid `method`, weight-length mismatch)
and `InputShapeError` for a zero-length score vector. -/
inductive EnsemblerError where
  | configurationError
  | inputShapeError
deriving DecidableEq, Repr

/-- Maximum of a list of scores, as `np.max` computes it on a non-empty
array (fold of the binary max over the elements); `0` on the empty list,
which the combination functions never reach. -/
def listMax : List ℚ → ℚ
  | [] => 0
  | a :: t => t.foldl max a

/-- Arithmetic mean of a list of scores, as `np.mean`: sum divided by
length. -/
def listMean (l : List ℚ) : ℚ := l.sum / l.length

/-- Weighted average: dot product of scores and weights divided by the sum
of the weights. -/
def weightedAverage (scores weights : List ℚ) : ℚ :=
  (List.zipWith (· * ·) scores weights).sum / weights.sum

/-- Modelled from the spec: `pyod.models.combination.average`, absent from
the repository.  "Weighted mean; accepts an optional weight vector matching
detector count (uniform weights if absent); fails with ConfigurationError if
weight vector length mismatches detector count"; a zero-length score vector
is an `InputShapeError`. -/
def average (scores : List ℚ) (estimator_weights : Option (List ℚ)) :
    Except EnsemblerError ℚ :=
  if scores = [] then .error .inputShapeError
  else
    match estimator_weights with
    | none => .ok (weightedAverage scores (List.replicate scores.length 1))
    | some w =>
        if w.length = scores.length then .ok (weightedAverage scores w)
        else .error .configurationError

/-- Modelled from the spec: `pyod.models.combination.maximization`, absent
from the repository.  "Returns the maximum element" of a non-empty score
vector; a zero-length score vector is an `InputShapeError`. -/
def maximization (scores : List ℚ) : Except EnsemblerError ℚ :=
  if scores = [] then .error .inputShapeError
  else .ok (listMax scores)

/-- Modelled from the spec: `pyod.models.combination.median`, absent from
the repository.  "Returns the median element (standard median-of-sorted-
sequence semantics, including the even-count averaging rule)"; a zero-length
score vector is an `InputShapeError`. -/
def median (scores : List ℚ) : Except EnsemblerError ℚ :=
  if scores = [] then .error .inputShapeError
  else
    let s := List.insertionSort (· ≤ ·) scores
    let n := scores.length
    if n % 2 = 1 then .ok (s.getD (n / 2) 0)
    else .ok ((s.getD (n / 2 - 1) 0 + s.getD (n / 2) 0) / 2)

/-- Recursor of `chunkList` with explicit fuel (structural recursion, so
applications reduce computationally); each step removes a chunk of `k`
elements from the front, always at least one. -/
def chunkFuel : Nat → Nat → List ℚ → List (List ℚ)
  | 0, _, _ => []
  | _ + 1, _, [] => []
  | fuel + 1, k, a :: t => (a :: t.take (k - 1)) :: chunkFuel fuel k (t.drop (k - 1))

/-- Contiguous chunks of size `k` (in input order): the static bucketing
partition of the spec. -/
def chunkList (k : Nat) (l : List ℚ) : List (List ℚ) := chunkFuel l.length k l

/-- Modelled from the spec: the "randomized variable-size partition" used by
dynamic bucketing and bootstrap resampling, absent from the repository.
Element `i` is assigned to the bucket selected by the `i`-th value of the
explicit random source, modulo the bucket count. -/
def randBuckets (rand : List Nat) (b : Nat) (l : List ℚ) : List (List ℚ) :=
  (List.range b).map fun j =>
    ((l.enum.filter fun p => rand.getD p.1 0 % b = j).map Prod.snd)

/-- Shared validation and bucketing of `aom` / `moa`, modelled from the
spec: a zero-length score vector is an `InputShapeError`; `method` must be
"static" or "dynamic"; `n_buckets` must be positive and, when bootstrap is
disabled, at most the detector count (else `ConfigurationError`).  Static
bucketing without bootstrap is the contiguous fixed-size partition in input
order; dynamic bucketing or bootstrap consumes the random source. -/
def bucketize (scores : List ℚ) (n_buckets : Int) (method : String)
    (bootstrap_estimators : Bool) (rand : List Nat) :
    Except EnsemblerError (List (List ℚ)) :=
  if scores = [] then .error .inputShapeError
  else if method ≠ "static" ∧ method ≠ "dynamic" then .error .configurationError
  else if n_buckets ≤ 0 ∨ (¬ bootstrap_estimators ∧ (scores.length : Int) < n_buckets) then
    .error .configurationError
  else if method = "static" ∧ ¬ bootstrap_estimators then
    .ok (chunkList (scores.length / n_buckets.toNat) scores)
  else
    .ok (randBuckets rand n_buckets.toNat scores)

/-- Modelled from the spec: `pyod.models.combination.aom`, absent from the
repository.  "Partitions the detector set into `n_buckets` groups, takes the
maximum score within each bucket, returns the mean of per-bucket maxima." -/
def aom (scores : List ℚ) (n_buckets : Int) (method : String)
    (bootstrap_estimators : Bool) (rand : List Nat) : Except EnsemblerError ℚ :=
  (bucketize scores n_buckets method bootstrap_estimators rand).map
    fun buckets => listMean (buckets.map listMax)

/-- Modelled from the spec: `pyod.models.combination.moa`, absent from the
repository.  "Same bucketing policy, but takes the mean per bucket and
returns the maximum of per-bucket means." -/
def moa (scores : List ℚ) (n_buckets : Int) (method : String)
    (bootstrap_estimators : Bool) (rand : List Nat) : Except EnsemblerError ℚ :=
  (bucketize scores n_buckets method bootstrap_estimators rand).map
    fun buckets => listMax (buckets.map listMean)

/-- Embeds `AverageScoreEnsembler.__init__`: stores the optional weight vector. -/
structure AverageScoreEnsembler where
  estimator_weights : Option (List ℚ) := none

/-- Embeds `MaxScoreEnsembler`: no configuration. -/
structure MaxScoreEnsembler where

/-- Embeds `MedianScoreEnsembler`: no configuration. -/
structure MedianScoreEnsembler where

/-- Embeds `AverageOfMaximumEnsembler.__init__`: stores `method`, `n_buckets` and
`bootstrap_estimators` verbatim, with the defaults of the source; it performs no
validation. -/
structure AverageOfMaximumEnsembler where
  n_buckets : Int := 5
  method : String := "static"
  bootstrap_estimators : Bool := false

/-- Embeds `MaximumOfAverageEnsembler.__init__`: stores `method`, `n_buckets` and
`bootstrap_estimators` verbatim, with the defaults of the source; it performs no
validation. -/
structure MaximumOfAverageEnsembler where
  n_buckets : Int := 5
  method : String := "static"
  bootstrap_estimators : Bool := false

/-- The five concrete `PYODScoreEnsembler` subclasses of the repository. -/
inductive Ensembler where
  | avg : AverageScoreEnsembler → Ensembler
  | maxS : MaxScoreEnsembler → Ensembler
  | medianS : MedianScoreEnsembler → Ensembler
  | aomS : AverageOfMaximumEnsembler → Ensembler
  | moaS : MaximumOfAverageEnsembler → Ensembler

/-- Embeds `PYODScoreEnsembler.transform_partial`: reshapes the score vector to
shape `(1, n)` (the identity on a single vector) and delegates to the
subclass `_combine`, each of which calls the corresponding collaborator
function.  The explicit random source is consumed only by dynamic bucketing
or bootstrap resampling. -/
def Ensembler.transformOne : Ensembler → List Nat → List ℚ → Except EnsemblerError ℚ
  | .avg e, _, scores => average scores e.estimator_weights
  | .maxS _, _, scores => maximization scores
  | .medianS _, _, scores => median scores
  | .aomS e, rand, scores =>
      aom scores e.n_buckets e.method e.bootstrap_estimators rand
  | .moaS e, rand, scores =>
      moa scores e.n_buckets e.method e.bootstrap_estimators rand

/-- An ensembler configuration that never consumes the random source:
`Average`, `Max` and `Median` unconditionally, and the bucket-based
ensemblers when `method` is "static" and bootstrap is disabled. -/
def Ensembler.staticConfig : Ensembler → Prop
  | .aomS e => e.method = "static" ∧ e.bootstrap_estimators = false
  | .moaS e => e.method = "static" ∧ e.bootstrap_estimators = false
  | _ => True

/-! ### Supporting lemmas -/

theorem foldl_max_mem : ∀ (t : List ℚ) (a : ℚ), t.foldl max a = a ∨ t.foldl max a ∈ t
  | [], a => Or.inl rfl
  | b :: t, a => by
    have ih := foldl_max_mem t (max a b)
    simp only [List.foldl_cons]
    rcases ih with h | h
    · rcases max_choice a b with hab | hab
      · exact Or.inl (h.trans hab)
      · exact Or.inr (by rw [h, hab]; exact List.mem_cons_self b t)
    · exact Or.inr (List.mem_cons_of_mem _ h)

theorem foldl_max_le : ∀ (t : List ℚ) (a : ℚ), a ≤ t.foldl max a ∧ ∀ x ∈ t, x ≤ t.foldl max a
  | [], a => ⟨le_refl a, by simp⟩
  | b :: t, a => by
    have ih := foldl_max_le t (max a b)
    simp only [List.foldl_cons]
    refine ⟨le_trans (le_max_left a b) ih.1, ?_⟩
    intro x hx
    rcases List.mem_cons.mp hx with rfl | h
    · exact le_trans (le_max_right a x) ih.1
    · exact ih.2 x h

theorem listMax_mem (l : List ℚ) (h : l ≠ []) : listMax l ∈ l := by
  match l with
  | a :: t =>
    rcases foldl_max_mem t a with h1 | h1
    · simp [listMax, h1]
    · simp [listMax, List.mem_cons_of_mem _ h1]

theorem le_listMax (l : List ℚ) (x : ℚ) (hx : x ∈ l) : x ≤ listMax l := by
  match l with
  | a :: t =>
    rcases List.mem_cons.mp hx with h | h
    · exact h ▸ (foldl_max_le t a).1
    · exact (foldl_max_le t a).2 x h

theorem listMax_singleton (a : ℚ) : listMax [a] = a := rfl

theorem listMean_singleton (a : ℚ) : listMean [a] = a := by
  simp [listMean]

theorem chunkFuel_nil (n k : Nat) : chunkFuel n k [] = [] := by
  cases n <;> rfl

theorem chunkFuel_whole (k : Nat) (l : List ℚ) (hne : l ≠ []) (hk : l.length ≤ k) :
    chunkFuel l.length k l = [l] := by
  match l with
  | a :: t =>
    have h1 : t.take (k - 1) = t := List.take_of_length_le (by simp at hk; omega)
    have h2 : t.drop (k - 1) = [] := List.drop_eq_nil_of_le (by simp at hk; omega)
    simp [List.length_cons, chunkFuel, h1, h2, chunkFuel_nil]

theorem chunkList_whole (k : Nat) (l : List ℚ) (hne : l ≠ []) (hk : l.length ≤ k) :
    chunkList k l = [l] := chunkFuel_whole k l hne hk

theorem chunkList_singletons : ∀ (l : List ℚ), chunkList 1 l = l.map fun a => [a]
  | [] => rfl
  | a :: t => by
    have ih := chunkList_singletons t
    simp only [chunkList, List.length_cons, chunkFuel, List.take_zero, List.drop_zero,
      List.map_cons] at *
    simp [ih]

theorem zipWith_mul_replicate_one : ∀ (l : List ℚ),
    List.zipWith (· * ·) l (List.replicate l.length 1) = l
  | [] => rfl
  | a :: t => by
    simp only [List.length_cons, List.replicate_succ, List.zipWith_cons_cons, mul_one]
    rw [zipWith_mul_replicate_one t]

theorem bucketize_static_rand_irrelevant (l : List ℚ) (n : Int) (r₁ r₂ : List Nat) :
    bucketize l n "static" false r₁ = bucketize l n "static" false r₂ := by
  unfold bucketize
  simp

/-! ### Claim theorems -/

/-- C10: a default-constructed `AverageOfMaximumEnsembler` or
`MaximumOfAverageEnsembler` has `n_buckets = 5`, `method = "static"` and
`bootstrap_estimators = False`, so it uses static contiguous bucketing with
5 buckets and no resampling. -/
theorem default_bucket_ensembler_config :
    (({} : AverageOfMaximumEnsembler).n_buckets = 5 ∧
     ({} : AverageOfMaximumEnsembler).method = "static" ∧
     ({} : AverageOfMaximumEnsembler).bootstrap_estimators = false) ∧
    (({} : MaximumOfAverageEnsembler).n_buckets = 5 ∧
     ({} : MaximumOfAverageEnsembler).method = "static" ∧
     ({} : MaximumOfAverageEnsembler).bootstrap_estimators = false) :=
  ⟨⟨rfl, rfl, rfl⟩, ⟨rfl, rfl, rfl⟩⟩

/-- C2: on every non-empty score vector, `MaxScoreEnsembler.transform_partial`
returns exactly the maximum element of the vector (a member of the vector
that bounds every element from above). -/
theorem maxScoreEnsembler_returns_maximum (e : MaxScoreEnsembler) (rand : List Nat)
    (l : List ℚ) (h : l ≠ []) :
    Ensembler.transformOne (.maxS e) rand l = .ok (listMax l) ∧
    listMax l ∈ l ∧ ∀ x ∈ l, x ≤ listMax l := by
  refine ⟨?_, listMax_mem l h, fun x hx => le_listMax l x hx⟩
  simp [Ensembler.transformOne, maximization, h]

/-- Witness for C2 at the example vector of the spec. -/
theorem maxScoreEnsembler_returns_maximum_witness :
    Ensembler.transformOne (.maxS {}) [] [1/10, 9/10, 5/10, 3/10] =
      .ok (listMax [1/10, 9/10, 5/10, 3/10]) ∧
    listMax [1/10, 9/10, 5/10, 3/10] ∈ ([1/10, 9/10, 5/10, 3/10] : List ℚ) ∧
    ∀ x ∈ ([1/10, 9/10, 5/10, 3/10] : List ℚ),
      x ≤ listMax [1/10, 9/10, 5/10, 3/10] :=
  maxScoreEnsembler_returns_maximum {} [] [1/10, 9/10, 5/10, 3/10] (by decide)

/-- C3: on every non-empty score vector,
`MedianScoreEnsembler.transform_partial` returns the standard median: the
middle element of any sorted rearrangement for odd length, and the average
of the two middle sorted elements for even length. -/
theorem medianScoreEnsembler_sorted_middle (e : MedianScoreEnsembler) (rand : List Nat)
    (l s : List ℚ) (hne : l ≠ []) (hp : l.Perm s) (hs : s.Sorted (· ≤ ·)) :
    Ensembler.transformOne (.medianS e) rand l =
      .ok (if l.length % 2 = 1 then s.getD (l.length / 2) 0
           else (s.getD (l.length / 2 - 1) 0 + s.getD (l.length / 2) 0) / 2) := by
  have hsort : List.insertionSort (· ≤ ·) l = s :=
    List.eq_of_perm_of_sorted ((List.perm_insertionSort _ l).trans hp)
      (List.sorted_insertionSort _ l) hs
  simp only [Ensembler.transformOne, median, if_neg hne, hsort]
  rw [apply_ite Except.ok]

/-- Witness for C3 at the example vector of the spec: the median of
`[0.1, 0.9, 0.5, 0.3]` is `0.4`, the average of the middle two sorted
elements `0.3` and `0.5`. -/
theorem medianScoreEnsembler_sorted_middle_witness :
    Ensembler.transformOne (.medianS {}) [] [1/10, 9/10, 5/10, 3/10] = .ok (2/5) := by
  have hperm : ([1/10, 9/10, 5/10, 3/10] : List ℚ).Perm [1/10, 3/10, 5/10, 9/10] := by
    refine List.Perm.cons _ ?_
    exact ((List.Perm.swap _ _ _).trans
      (List.Perm.cons _ (List.Perm.swap _ _ _))).trans (List.Perm.swap _ _ _)
  have h := medianScoreEnsembler_sorted_middle {} [] [1/10, 9/10, 5/10, 3/10]
    [1/10, 3/10, 5/10, 9/10] (by simp) hperm (by norm_num [List.sorted_cons])
  rw [h]
  norm_num

/-- C4: `AverageScoreEnsembler.transform_partial` with no configured weight
vector returns the arithmetic mean of a non-empty score vector, and with a
weight vector of matching length returns the weighted mean
(sum of products divided by sum of weights). -/
theorem averageScoreEnsembler_mean_and_weighted :
    (∀ (e : AverageScoreEnsembler) (rand : List Nat) (l : List ℚ),
      e.estimator_weights = none → l ≠ [] →
      Ensembler.transformOne (.avg e) rand l = .ok (l.sum / l.length)) ∧
    (∀ (e : AverageScoreEnsembler) (rand : List Nat) (l w : List ℚ),
      e.estimator_weights = some w → l ≠ [] → w.length = l.length →
      Ensembler.transformOne (.avg e) rand l =
        .ok ((List.zipWith (· * ·) l w).sum / w.sum)) := by
  constructor
  · intro e rand l hw hne
    simp [Ensembler.transformOne, average, hw, hne, weightedAverage,
      zipWith_mul_replicate_one, List.sum_replicate]
  · intro e rand l w hw hne hlen
    simp [Ensembler.transformOne, average, hw, hne, hlen, weightedAverage]

/-- Witness for C4: uniform case at the example vector of the spec, weighted case
at a two-detector vector with weights `[1, 3]`. -/
theorem averageScoreEnsembler_mean_and_weighted_witness :
    Ensembler.transformOne (.avg ⟨none⟩) [] [1/10, 9/10, 5/10, 3/10] =
      .ok (([1/10, 9/10, 5/10, 3/10] : List ℚ).sum /
        (([1/10, 9/10, 5/10, 3/10] : List ℚ).length : ℚ)) ∧
    Ensembler.transformOne (.avg ⟨some [1, 3]⟩) [] [2, 6] =
      .ok ((List.zipWith (· * ·) ([2, 6] : List ℚ) [1, 3]).sum /
        ([1, 3] : List ℚ).sum) :=
  ⟨averageScoreEnsembler_mean_and_weighted.1 ⟨none⟩ [] _ rfl (by decide),
   averageScoreEnsembler_mean_and_weighted.2 ⟨some [1, 3]⟩ [] _ [1, 3] rfl (by decide) rfl⟩

theorem map_listMax_singletons (l : List ℚ) : (l.map fun a => [a]).map listMax = l := by
  induction l with
  | nil => rfl
  | cons a t ih => simp [listMax_singleton, ih]

theorem map_listMean_singletons (l : List ℚ) : (l.map fun a => [a]).map listMean = l := by
  induction l with
  | nil => rfl
  | cons a t ih => simp [listMean_singleton, ih]

theorem bucketize_one (rand : List Nat) (l : List ℚ) (hne : l ≠ []) :
    bucketize l 1 "static" false rand = .ok [l] := by
  unfold bucketize
  rw [if_neg hne, if_neg (by norm_num), if_neg (by simpa using hne), if_pos (by norm_num)]
  rw [Int.toNat_one, Nat.div_one, chunkList_whole _ l hne (le_refl _)]

theorem bucketize_length (rand : List Nat) (l : List ℚ) (hne : l ≠ []) :
    bucketize l (l.length : Int) "static" false rand = .ok (l.map fun a => [a]) := by
  have hlen : 0 < l.length := List.length_pos.mpr hne
  unfold bucketize
  rw [if_neg hne, if_neg (by norm_num), if_neg (by simpa using hne), if_pos (by norm_num)]
  rw [Int.toNat_natCast, Nat.div_self hlen, chunkList_singletons]

/-- C5: with `n_buckets = 1`, `method = "static"` and bootstrap disabled, on
every non-empty score vector `AverageOfMaximumEnsembler.transform_partial`
returns the maximum of all scores and
`MaximumOfAverageEnsembler.transform_partial` returns the arithmetic mean of
all scores. -/
theorem bucket_ensemblers_single_bucket (rand : List Nat) (l : List ℚ) (hne : l ≠ []) :
    Ensembler.transformOne (.aomS ⟨1, "static", false⟩) rand l = .ok (listMax l) ∧
    Ensembler.transformOne (.moaS ⟨1, "static", false⟩) rand l =
      .ok (l.sum / l.length) := by
  have hb := bucketize_one rand l hne
  constructor
  · simp [Ensembler.transformOne, aom, hb, Except.map, listMean_singleton]
  · simp [Ensembler.transformOne, moa, hb, Except.map, listMax_singleton, listMean]

/-- Witness for C5 on the vector `[1, 3]`. -/
theorem bucket_ensemblers_single_bucket_witness :
    Ensembler.transformOne (.aomS ⟨1, "static", false⟩) [] [1, 3] =
      .ok (listMax [1, 3]) ∧
    Ensembler.transformOne (.moaS ⟨1, "static", false⟩) [] [1, 3] =
      .ok (([1, 3] : List ℚ).sum / (([1, 3] : List ℚ).length : ℚ)) :=
  bucket_ensemblers_single_bucket [] [1, 3] (by simp)

/-- C6 counterexample: with `n_buckets = len(scores) = 2` (static, no
bootstrap), `MaximumOfAverageEnsembler.transform_partial` on `[1, 3]`
returns `3`, the maximum, which is not the arithmetic mean `2` the claim
demands. -/
theorem moa_bucket_per_score_not_mean :
    Ensembler.transformOne (.moaS ⟨2, "static", false⟩) [] [1, 3] = .ok 3 ∧
    (3 : ℚ) ≠ ([1, 3] : List ℚ).sum / (([1, 3] : List ℚ).length : ℚ) := by
  constructor
  · have hb : bucketize [1, 3] 2 "static" false [] = .ok [[1], [3]] := rfl
    simp [Ensembler.transformOne, moa, hb, Except.map, listMean_singleton, listMax,
      max_eq_right (by norm_num : (1 : ℚ) ≤ 3)]
  · norm_num

/-- C6 amended: with `n_buckets = len(scores)`, `method = "static"` and
bootstrap disabled, each bucket holds exactly one score, so
`AverageOfMaximumEnsembler.transform_partial` returns the arithmetic mean of
all scores while `MaximumOfAverageEnsembler.transform_partial` returns the
maximum of all scores. -/
theorem bucket_ensemblers_bucket_per_score (rand : List Nat) (l : List ℚ) (hne : l ≠ []) :
    Ensembler.transformOne (.aomS ⟨(l.length : Int), "static", false⟩) rand l =
      .ok (l.sum / l.length) ∧
    Ensembler.transformOne (.moaS ⟨(l.length : Int), "static", false⟩) rand l =
      .ok (listMax l) := by
  have hb := bucketize_length rand l hne
  constructor
  · simp only [Ensembler.transformOne, aom, hb, Except.map, map_listMax_singletons, listMean]
  · simp only [Ensembler.transformOne, moa, hb, Except.map, map_listMean_singletons]

/-- Witness for the amended C6 on the vector `[1, 3]`. -/
theorem bucket_ensemblers_bucket_per_score_witness :
    Ensembler.transformOne
        (.aomS ⟨((([1, 3] : List ℚ).length : Nat) : Int), "static", false⟩) [] [1, 3] =
      .ok (([1, 3] : List ℚ).sum / (([1, 3] : List ℚ).length : ℚ)) ∧
    Ensembler.transformOne
        (.moaS ⟨((([1, 3] : List ℚ).length : Nat) : Int), "static", false⟩) [] [1, 3] =
      .ok (listMax [1, 3]) :=
  bucket_ensemblers_bucket_per_score [] [1, 3] (by simp)

/-- C7 counterexample: a zero-length score vector against a configured
one-element weight vector fails with `InputShapeError`, not the
`ConfigurationError` the claim demands for every length mismatch. -/
theorem average_empty_mismatch_not_configuration_error :
    Ensembler.transformOne (.avg ⟨some [1]⟩) [] ([] : List ℚ) =
      .error .inputShapeError ∧
    (Except.error .inputShapeError : Except EnsemblerError ℚ) ≠
      .error .configurationError :=
  ⟨rfl, by simp⟩

/-- C7 amended: on every non-empty score vector whose length differs from
the length of the configured weight vector,
`AverageScoreEnsembler.transform_partial` fails with `ConfigurationError`;
the zero-length vector instead fails with `InputShapeError`. -/
theorem average_weight_mismatch_configuration_error (e : AverageScoreEnsembler)
    (rand : List Nat) (l w : List ℚ) (hw : e.estimator_weights = some w)
    (hne : l ≠ []) (hlen : w.length ≠ l.length) :
    Ensembler.transformOne (.avg e) rand l = .error .configurationError := by
  simp [Ensembler.transformOne, average, hw, hne, hlen]

/-- Witness for the amended C7: two configured weights against one score. -/
theorem average_weight_mismatch_configuration_error_witness :
    Ensembler.transformOne (.avg ⟨some [1, 2]⟩) [] [7] = .error .configurationError :=
  average_weight_mismatch_configuration_error ⟨some [1, 2]⟩ [] [7] [1, 2] rfl
    (by simp) (by simp)

/-- C8: every ensembler variant fails with `InputShapeError` on a
zero-length score vector; no partial result is returned (the call yields the
error value and nothing else) and, the combine functions being pure
functions of the configuration and input, the configuration is unchanged. -/
theorem transformOne_empty_input_shape_error (e : Ensembler) (rand : List Nat) :
    Ensembler.transformOne e rand [] = .error .inputShapeError := by
  cases e <;> rfl

/-- C9: for `Average`, `Max` and `Median` unconditionally, and for the
bucket-based ensemblers configured with `method = "static"` and bootstrap
disabled, `transform_partial` never consumes the random source: two calls on
equal score vectors with equal configuration return equal combined scores,
whatever random values each call would have drawn. -/
theorem transformOne_static_deterministic (e : Ensembler) (r₁ r₂ : List Nat)
    (l : List ℚ) (h : e.staticConfig) :
    Ensembler.transformOne e r₁ l = Ensembler.transformOne e r₂ l := by
  cases e with
  | avg e => rfl
  | maxS e => rfl
  | medianS e => rfl
  | aomS e =>
    obtain ⟨hm, hb⟩ := h
    simp only [Ensembler.transformOne, aom]
    rw [hm, hb, bucketize_static_rand_irrelevant l e.n_buckets r₁ r₂]
  | moaS e =>
    obtain ⟨hm, hb⟩ := h
    simp only [Ensembler.transformOne, moa]
    rw [hm, hb, bucketize_static_rand_irrelevant l e.n_buckets r₁ r₂]

/-- Witness for C9: a static `AverageOfMaximumEnsembler` gives the same
result under two different random sources. -/
theorem transformOne_static_deterministic_witness :
    Ensembler.transformOne (.aomS ⟨2, "static", false⟩) [3, 1, 4] [1, 2, 3, 4] =
    Ensembler.transformOne (.aomS ⟨2, "static", false⟩) [5, 9] [1, 2, 3, 4] :=
  transformOne_static_deterministic _ [3, 1, 4] [5, 9] [1, 2, 3, 4] ⟨rfl, rfl⟩

/-- C1 counterexample: constructing a bucket-based ensembler with
`method = "neither"` succeeds and produces an instance holding the invalid
method verbatim — the `__init__` methods only store their arguments and
perform no validation, so no error is raised at construction time. -/
theorem bucket_ensembler_constructor_accepts_invalid_method :
    (AverageOfMaximumEnsembler.mk 5 "neither" false).method = "neither" ∧
    (AverageOfMaximumEnsembler.mk 5 "neither" false).n_buckets = 5 ∧
    (MaximumOfAverageEnsembler.mk 5 "neither" false).method = "neither" ∧
    (MaximumOfAverageEnsembler.mk 5 "neither" false).n_buckets = 5 :=
  ⟨rfl, rfl, rfl, rfl⟩

/-- C1 amended: constructing a bucket-based ensembler with a `method` that
is neither "static" nor "dynamic" succeeds, storing the arguments unchanged;
the `ConfigurationError` is raised only when `transform_partial` is called
on a non-empty score vector. -/
theorem invalid_method_fails_at_transform_time (n : Int) (m : String) (b : Bool)
    (rand : List Nat) (l : List ℚ) (hne : l ≠ [])
    (h1 : m ≠ "static") (h2 : m ≠ "dynamic") :
    (AverageOfMaximumEnsembler.mk n m b).method = m ∧
    (MaximumOfAverageEnsembler.mk n m b).method = m ∧
    Ensembler.transformOne (.aomS (AverageOfMaximumEnsembler.mk n m b)) rand l =
      .error .configurationError ∧
    Ensembler.transformOne (.moaS (MaximumOfAverageEnsembler.mk n m b)) rand l =
      .error .configurationError := by
  refine ⟨rfl, rfl, ?_, ?_⟩ <;>
    simp [Ensembler.transformOne, aom, moa, bucketize, Except.map, hne, h1, h2]

/-- Witness for the amended C1 with `method = "neither"`. -/
theorem invalid_method_fails_at_transform_time_witness :
    (AverageOfMaximumEnsembler.mk 5 "neither" false).method = "neither" ∧
    (MaximumOfAverageEnsembler.mk 5 "neither" false).method = "neither" ∧
    Ensembler.transformOne (.aomS (AverageOfMaximumEnsembler.mk 5 "neither" false))
      [] [1] = .error .configurationError ∧
    Ensembler.transformOne (.moaS (MaximumOfAverageEnsembler.mk 5 "neither" false))
      [] [1] = .error .configurationError :=
  invalid_method_fails_at_transform_time 5 "neither" false [] [1] (by simp)
    (by decide) (by decide)

end FraudAnomaly
